import Mathlib

/-!
Verification of the resilient-scraping core of the Google-Scrapper repository
(src/config.py, src/scraper.py, src/scraper_by_link.py).

The browser driver (Playwright) is an external collaborator: page inspection
results (selector hits, page text, extracted fields) and the success of each
filesystem write are inputs to the embedded functions, mirroring the spec's
FieldExtractor / CaptchaGuard / PersistenceLedger boundaries.  Every control
path, string constant and comparison below is transcribed from the Python
source; Python float coordinates are modelled as rationals and the geodesic
distance function is a parameter (the code calls geopy's geodesic, an external
library).
-/

/-- Substring search helper: Python's `needle in hay` on strings, transcribed
as a scan over character lists.  `isPrefOf n h` holds when `n` is an initial
segment of `h`. -/
def isPrefOf : List Char → List Char → Bool
  | [], _ => true
  | _ :: _, [] => false
  | a :: as, b :: bs => a == b && isPrefOf as bs

/-- `findSub needle hay = true` iff `needle` occurs contiguously in `hay`. -/
def findSub (needle : List Char) : List Char → Bool
  | [] => needle.isEmpty
  | c :: rest => isPrefOf needle (c :: rest) || findSub needle rest

/-- Python `needle in hay` for strings. -/
def containsSub (hay needle : String) : Bool :=
  findSub needle.toList hay.toList

/-- Python `s.lower()` (the blocking phrases matched against it are ASCII). -/
def lowerStr (s : String) : String :=
  String.mk (s.toList.map Char.toLower)

/-- One extracted listing (the `place_data` dict built in
`parse_place_details`, src/scraper.py 617-632 and src/scraper_by_link.py
755-770).  `googleMapsUrl = none` models the absence of the
`'google_maps_url'` key. -/
structure RawRecord where
  name : String
  address : Option String := none
  latitude : Option ℚ := none
  longitude : Option ℚ := none
  phone : Option String := none
  email : Option String := none
  website : Option String := none
  googleMapsUrl : Option String := none
  category : Option String := none
  rating : Option ℚ := none
  hours : Option String := none
  priceLevel : Option String := none
  businessStatus : Option String := none
  scrapedAt : Option String := none
deriving DecidableEq

/-- src/config.py line 32. -/
def GEO_TOLERANCE_METERS : ℚ := 25

/-- src/config.py lines 22-29: the TIMING dictionary.  Note that there is no
`networkidle_timeout` entry. -/
def TIMING : List (String × ℚ) :=
  [("page_load_timeout", 30000), ("navigation_timeout", 30000),
   ("min_delay", 3/2), ("max_delay", 7/2), ("scroll_delay", 4/5),
   ("item_parse_delay", 1/2)]

/-- src/scraper.py line 168 and src/scraper_by_link.py line 270. -/
def blocking_keywords : List String :=
  ["unusual traffic", "automated requests", "verify you", "not a robot"]

/-- Durable and in-memory state of `IncrementalSaver`
(src/scraper_by_link.py 73-140).  `csvLines`/`jsonlLines` are the rows of the
two append-only output streams (the one-time CSV header row is elided),
`failedLines` the failure log, `scrapedUrls` the in-memory identifier set and
`resumeFile` the durable resume state (`none` = file absent). -/
structure SaverState where
  csvLines : List RawRecord := []
  jsonlLines : List RawRecord := []
  failedLines : List (String × String) := []
  scrapedUrls : List String := []
  resumeFile : Option (List String) := none
deriving DecidableEq

def initSaver : SaverState := {}

/-- Python `set.add`: the in-memory url set, kept as an insertion-ordered
duplicate-free list. -/
def insertUrl (l : List String) (u : String) : List String :=
  if u ∈ l then l else l ++ [u]

/-- `IncrementalSaver.save_resume_state` (src/scraper_by_link.py 119-128):
rewrites the resume file with the full in-memory set; a failed write is
swallowed (modelled as leaving the previous durable state). -/
def save_resume_state (s : SaverState) (ok : Bool) : SaverState :=
  if ok then { s with resumeFile := some s.scrapedUrls } else s

/-- `IncrementalSaver.save_place` (src/scraper_by_link.py 85-109).  The CSV
and JSONL writes sit in independent try/except blocks whose failures are
logged and swallowed (`csvOk`/`jsonlOk`); afterwards, when the record has a
`google_maps_url` key, the url is added to the in-memory set and the resume
state is flushed. -/
def save_place (s : SaverState) (place : RawRecord)
    (csvOk jsonlOk resumeOk : Bool) : SaverState :=
  let s1 := if csvOk then { s with csvLines := s.csvLines ++ [place] } else s
  let s2 :=
    if jsonlOk then { s1 with jsonlLines := s1.jsonlLines ++ [place] } else s1
  match place.googleMapsUrl with
  | some u =>
      save_resume_state { s2 with scrapedUrls := insertUrl s2.scrapedUrls u } resumeOk
  | none => s2

/-- `IncrementalSaver.save_failed_url` (src/scraper_by_link.py 111-117):
appends one `url | Error: reason` line to the failure log; a failed write is
swallowed. -/
def save_failed_url (s : SaverState) (url err : String) (ok : Bool) : SaverState :=
  if ok then { s with failedLines := s.failedLines ++ [(url, err)] } else s

/-- `IncrementalSaver.load_resume_state` (src/scraper_by_link.py 130-140):
empty set when the file is absent or unreadable, otherwise its url list. -/
def load_resume_state (durable : Option (List String)) (readOk : Bool) :
    List String :=
  match durable with
  | none => []
  | some l => if readOk then l else []

/-- One operation against the ledger, with the write-success oracles. -/
inductive SaverOp
  | place (r : RawRecord) (csvOk jsonlOk resumeOk : Bool)
  | failure (url err : String) (ok : Bool)
deriving DecidableEq

def applyOp (s : SaverState) : SaverOp → SaverState
  | SaverOp.place r c j rOk => save_place s r c j rOk
  | SaverOp.failure u e ok => save_failed_url s u e ok

def runOps (s : SaverState) (ops : List SaverOp) : SaverState :=
  ops.foldl applyOp s

/-- Snapshot of the browser page as the scraper inspects it: the CAPTCHA
marker query result, the page markup, and the field values the (external)
extraction helpers would return for this page. -/
structure PageState where
  url : String := ""
  captchaElement : Bool := false
  content : String := ""
  name : Option String := none
  latitude : Option ℚ := none
  longitude : Option ℚ := none
  address : Option String := none
  phone : Option String := none
  emails : Option String := none
  website : Option String := none
  category : Option String := none
  rating : Option ℚ := none
  hours : Option String := none
  price : Option String := none
  status : Option String := none
deriving DecidableEq

/-- `check_for_captcha` (src/scraper.py 158-176, identical in
src/scraper_by_link.py 260-278).  `queryOk`/`contentOk` say whether the two
page inspections succeed; any exception is caught and the function returns
False.  The function inspects only its inputs and returns a Bool: it is a
pure classification. -/
def check_for_captcha (pg : PageState) (queryOk contentOk : Bool) : Bool :=
  if queryOk then
    if pg.captchaElement then true
    else if contentOk then
      if blocking_keywords.any (fun kw => containsSub (lowerStr pg.content) kw)
      then true
      else false
    else false
  else false

/-- Process-lifetime dedup state (`self.seen_places`, `self.scraped_places`). -/
structure ScraperState where
  seenPlaces : List String := []
  scrapedPlaces : List RawRecord := []
deriving DecidableEq

/-- Python truthiness of an optional float: `None` and `0.0` are falsy. -/
def truthyQ : Option ℚ → Bool
  | none => false
  | some x => x != 0

/-- `is_duplicate` (src/scraper.py 641-666, identical in
src/scraper_by_link.py 779-802).  `dist` is the geodesic great-circle
distance in meters (geopy, an external library, is a parameter here).  The
guards `if lat and lon:` and `if place['latitude'] and place['longitude']:`
are Python truthiness tests, so a coordinate equal to 0.0 disables the scan.
On acceptance the name is registered into the seen set. -/
def is_duplicate (dist : ℚ × ℚ → ℚ × ℚ → ℚ) (st : ScraperState)
    (name : String) (lat lon : Option ℚ) : Bool × ScraperState :=
  if name = "" then (true, st)
  else if name ∈ st.seenPlaces then (true, st)
  else if truthyQ lat && truthyQ lon then
    if st.scrapedPlaces.any (fun p =>
        p.name == name ||
        (truthyQ p.latitude && truthyQ p.longitude &&
          decide (dist (lat.getD 0, lon.getD 0)
              (p.latitude.getD 0, p.longitude.getD 0) < GEO_TOLERANCE_METERS)))
    then (true, st)
    else (false, { st with seenPlaces := st.seenPlaces ++ [name] })
  else (false, { st with seenPlaces := st.seenPlaces ++ [name] })

/-- `PlaceScraper.parse_place_details` (src/scraper.py 427-639), keyword-search
mode.  The whole body is wrapped in try/except whose handler logs and returns
None.  Line 430 reads `TIMING['item_parse_delay']`; line 433 reads
`TIMING['networkidle_timeout']` — a missing key raises KeyError, which the
handler swallows, so a missing key yields `none`.  Then: CAPTCHA check (a hit
raises, swallowed by the same handler), name extraction (absent or empty name
yields `none`), dedup check, and assembly of the `place_data` dict from the
extracted fields. -/
def parse_place_details (dist : ℚ × ℚ → ℚ × ℚ → ℚ)
    (timing : List (String × ℚ)) (st : ScraperState) (pg : PageState)
    (now : String) : Option RawRecord × ScraperState :=
  if (List.lookup "item_parse_delay" timing).isNone then (none, st)
  else if (List.lookup "networkidle_timeout" timing).isNone then (none, st)
  else if check_for_captcha pg true true then (none, st)
  else
    match pg.name with
    | none => (none, st)
    | some nm =>
      if nm = "" then (none, st)
      else
        match is_duplicate dist st nm pg.latitude pg.longitude with
        | (true, st1) => (none, st1)
        | (false, st1) =>
            (some { name := nm, address := pg.address, latitude := pg.latitude,
                    longitude := pg.longitude, phone := pg.phone,
                    email := pg.emails, website := pg.website,
                    googleMapsUrl := some pg.url, category := pg.category,
                    rating := pg.rating, hours := pg.hours,
                    priceLevel := pg.price, businessStatus := pg.status,
                    scrapedAt := some now }, st1)

inductive LinkType
  | search
  | place
  | short
  | unknown
deriving DecidableEq

/-- `LinkScraper.detect_link_type` (src/scraper_by_link.py 280-289). -/
def detect_link_type (url : String) : LinkType :=
  if containsSub url "/search/" || containsSub url "search?" then LinkType.search
  else if containsSub url "/place/" then LinkType.place
  else if containsSub url "goo.gl" || containsSub url "maps.app.goo.gl" then
    LinkType.short
  else LinkType.unknown

/-- Scripted outcome of one inner-loop attempt at one item
(src/scraper_by_link.py 889-910): the navigation to the item may fail, the
CAPTCHA check may fire, otherwise `parse_place_details` returns a record or
None, after which `page.go_back` may fail. -/
inductive TryOutcome
  | gotoFail (msg : String)
  | captcha
  | parsed (res : Option RawRecord) (goBackErr : Option String)
deriving DecidableEq

/-- How the per-item loop ended. -/
inductive ItemEnd
  | success
  | recordedFailure (msg : String)
  | escalate (msg : String)
  | exhausted
deriving DecidableEq

/-- Script for one outer session attempt of `LinkScraper.scrape_with_retry`:
whether `navigate_to_link` succeeds, the page url after navigation, the
place-mode parse result, the links `collect_results` returns, and the
per-item, per-inner-try outcomes (indexed by position in the filtered link
list). -/
structure AttemptScript where
  navigateOk : Bool
  pageUrl : String
  placeOutcome : Option RawRecord
  links : List String
  tries : Nat → Nat → TryOutcome

/-- Whole-run state threaded through `LinkScraper.scrape_with_retry`:
`scraped` is `self.scraped_places`, `saver` the `IncrementalSaver`,
`successCount`/`failedCount` the `ProgressTracker` tallies, `fetched` the log
of item navigations issued (one entry per `page.goto(link)`), and
`attemptsUsed` the number of outer session attempts begun. -/
structure RunState where
  scraped : List RawRecord := []
  saver : SaverState := {}
  successCount : Nat := 0
  failedCount : Nat := 0
  fetched : List String := []
  attemptsUsed : Nat := 0
deriving DecidableEq

def initRun : RunState := {}

/-- src/scraper_by_link.py 895: the exception message raised on a CAPTCHA hit
in the item loop (also raised inside parse, where it is swallowed). -/
def captchaMsg : String := "CAPTCHA detected, rotating proxy"

/-- src/scraper_by_link.py 905. -/
def parseFailMsg : String := "Failed to parse place data"

/-- src/scraper_by_link.py 848. -/
def navFailMsg : String := "Navigation failed or blocked"

/-- src/scraper_by_link.py 873. -/
def noResultsMsg : String := "No results found"

/-- src/scraper_by_link.py 921: `"CAPTCHA" in error_msg or "blocked" in
error_msg.lower()`. -/
def isBlockErr (msg : String) : Bool :=
  containsSub msg "CAPTCHA" || containsSub (lowerStr msg) "blocked"

/-- src/scraper_by_link.py 886: `max_place_retry = 2`. -/
def maxPlaceRetry : Nat := 2

/-- Successful item: `saver.save_place`, `scraped_places.append`,
`progress.increment_success` (src/scraper_by_link.py 899-903).  The saver
write-success oracles are fixed to true here; their failures are swallowed
inside the saver and never affect control flow. -/
def recordSuccess (st : RunState) (r : RawRecord) : RunState :=
  { st with saver := save_place st.saver r true true true,
            scraped := st.scraped ++ [r],
            successCount := st.successCount + 1 }

/-- Exhausted item: `saver.save_failed_url`, `progress.increment_failed`
(src/scraper_by_link.py 916-918). -/
def recordFailure (st : RunState) (link msg : String) : RunState :=
  { st with saver := save_failed_url st.saver link msg true,
            failedCount := st.failedCount + 1 }

/-- The inner per-item retry loop (src/scraper_by_link.py 884-922):
`while place_retry < max_place_retry and not place_data`.  `fuel` is the
number of loop iterations still permitted (`maxPlaceRetry - placeRetry`).
Each iteration navigates to the item (logged in `fetched`); an exception
increments `place_retry`, then — in this order — records the item as failed
once the retries are exhausted, or escalates when the message matches the
CAPTCHA/blocked test, or retries in place. -/
def runItemGo (link : String) (tries : Nat → TryOutcome) :
    Nat → Nat → RunState → RunState × ItemEnd
  | 0, _, st => (st, ItemEnd.exhausted)
  | fuel + 1, placeRetry, st =>
    let st1 := { st with fetched := st.fetched ++ [link] }
    match tries placeRetry with
    | TryOutcome.gotoFail msg =>
        if placeRetry + 1 ≥ maxPlaceRetry then
          (recordFailure st1 link msg, ItemEnd.recordedFailure msg)
        else if isBlockErr msg then (st1, ItemEnd.escalate msg)
        else runItemGo link tries fuel (placeRetry + 1) st1
    | TryOutcome.captcha =>
        if placeRetry + 1 ≥ maxPlaceRetry then
          (recordFailure st1 link captchaMsg, ItemEnd.recordedFailure captchaMsg)
        else if isBlockErr captchaMsg then (st1, ItemEnd.escalate captchaMsg)
        else runItemGo link tries fuel (placeRetry + 1) st1
    | TryOutcome.parsed none _ =>
        if placeRetry + 1 ≥ maxPlaceRetry then
          (recordFailure st1 link parseFailMsg,
            ItemEnd.recordedFailure parseFailMsg)
        else if isBlockErr parseFailMsg then (st1, ItemEnd.escalate parseFailMsg)
        else runItemGo link tries fuel (placeRetry + 1) st1
    | TryOutcome.parsed (some r) gbErr =>
        let st2 := recordSuccess st1 r
        match gbErr with
        | none => (st2, ItemEnd.success)
        | some msg =>
            if placeRetry + 1 ≥ maxPlaceRetry then
              (recordFailure st2 link msg, ItemEnd.recordedFailure msg)
            else if isBlockErr msg then (st2, ItemEnd.escalate msg)
            else (st2, ItemEnd.success)

def runItem (link : String) (tries : Nat → TryOutcome) (st : RunState) :
    RunState × ItemEnd :=
  runItemGo link tries maxPlaceRetry 0 st

/-- The per-item for loop over the filtered result links
(src/scraper_by_link.py 879-922): before each item, the loop breaks once the
accepted-record count has reached `max_results`; an escalation propagates the
exception message to the outer loop (`some msg`), anything else moves to the
next item. -/
def runLinksLoop (tries : Nat → Nat → TryOutcome) (maxResults : Nat) :
    List String → Nat → RunState → RunState × Option String
  | [], _, st => (st, none)
  | link :: rest, i, st =>
    if st.scraped.length ≥ maxResults then (st, none)
    else
      match runItem link (tries i) st with
      | (st1, ItemEnd.escalate msg) => (st1, some msg)
      | (st1, _) => runLinksLoop tries maxResults rest (i + 1) st1

/-- One outer session attempt (src/scraper_by_link.py 836-925): acquire a
proxy and browser, navigate (failure raises), branch on the detected link
type.  `some msg` means the attempt raised; `none` means the function
returned `scraped_places`. -/
def runAttempt (a : AttemptScript) (already : List String) (maxResults : Nat)
    (st0 : RunState) : RunState × Option String :=
  let st := { st0 with attemptsUsed := st0.attemptsUsed + 1 }
  if a.navigateOk = false then (st, some navFailMsg)
  else
    match detect_link_type a.pageUrl with
    | LinkType.place =>
        if a.pageUrl ∈ already then (st, none)
        else
          match a.placeOutcome with
          | some r => (recordSuccess st r, none)
          | none => (st, none)
    | LinkType.search =>
        if a.links = [] then (st, some noResultsMsg)
        else
          runLinksLoop a.tries maxResults
            (a.links.filter (fun l => !(already.contains l))) 0 st
    | _ => (st, none)

/-- The outer retry loop (src/scraper_by_link.py 836-948):
`while retry_count < max_retries`; a failed attempt increments the counter
and rotates the proxy; exhausting the ceiling falls through to
`return self.scraped_places`.  `fuel = maxRetries - retryCount`. -/
def retryLoop (script : Nat → AttemptScript) (already : List String)
    (maxResults : Nat) : Nat → Nat → RunState → RunState
  | _, 0, st => st
  | retryCount, fuel + 1, st =>
      match runAttempt (script retryCount) already maxResults st with
      | (st1, none) => st1
      | (st1, some _) => retryLoop script already maxResults (retryCount + 1) fuel st1

/-- `LinkScraper.scrape_with_retry` (src/scraper_by_link.py 827-948): loads
the resume set once from the saver's durable state, then runs the bounded
outer retry loop.  The function always returns `scraped_places`; no exception
escapes. -/
def scrape_with_retry (script : Nat → AttemptScript) (maxResults maxRetries : Nat)
    (st0 : RunState) : RunState :=
  retryLoop script (load_resume_state st0.saver.resumeFile true) maxResults
    0 maxRetries st0

/-- The ledger invariant of the spec, relative to the JSONL output stream:
an identifier is in the processed set iff a record carrying it has been
written, and the two output streams carry the same rows. -/
def ledgerInv (s : SaverState) : Prop :=
  (∀ u, u ∈ s.scrapedUrls ↔ ∃ r ∈ s.jsonlLines, r.googleMapsUrl = some u) ∧
  s.csvLines = s.jsonlLines

/-- An operation whose output-stream writes succeed. -/
def goodOp : SaverOp → Prop
  | SaverOp.place _ c j _ => c = true ∧ j = true
  | SaverOp.failure _ _ _ => True

/-- Python `abs` on rationals, written without the lattice abs so that it
evaluates by cases. -/
def absQ (x : ℚ) : ℚ := if x < 0 then -x else x

/-- A concrete stand-in for the external geodesic-distance collaborator, used
to instantiate counterexamples and witnesses (an equirectangular taxicab
metric in meters; any metric vanishes on identical points, which is all the
counterexamples rely on). -/
def sampleDist (p q : ℚ × ℚ) : ℚ := 111320 * (absQ (p.1 - q.1) + absQ (p.2 - q.2))

/-- A distance oracle that reports exactly the tolerance boundary. -/
def constDist25 : ℚ × ℚ → ℚ × ℚ → ℚ := fun _ _ => 25

def c1Rec : RawRecord := { name := "A", googleMapsUrl := some "u" }

def c1Ops : List SaverOp := [SaverOp.place c1Rec true true true]

def c3Rec : RawRecord := { name := "B", googleMapsUrl := some "urlB" }

/-- Previously accepted record with truthy coordinates about 11 m from the
equator. -/
def c4Prior : RawRecord :=
  { name := "A", latitude := some (1/10000), longitude := some 50 }

def c4PriorW : RawRecord := { name := "A", latitude := some 1, longitude := some 50 }

/-- Previously accepted record sitting exactly on the equator (latitude 0). -/
def c5Prior : RawRecord := { name := "A", latitude := some 0, longitude := some 50 }

def c5RecW : RawRecord := { name := "A", latitude := some 1, longitude := some 2 }

/-- Scripted session: search link with one item whose first inner attempt is
an ordinary navigation timeout and whose second (final) inner attempt is a
CAPTCHA hit. -/
def c6Script : Nat → AttemptScript := fun _ =>
  { navigateOk := true, pageUrl := "search?x", placeOutcome := none,
    links := ["L1"],
    tries := fun _ t =>
      if t = 0 then TryOutcome.gotoFail "Timeout" else TryOutcome.captcha }

/-- Scripted session: search link with one item that hits a CAPTCHA on its
first inner attempt, every outer attempt. -/
def c6EscScript : Nat → AttemptScript := fun _ =>
  { navigateOk := true, pageUrl := "search?x", placeOutcome := none,
    links := ["L1"], tries := fun _ _ => TryOutcome.captcha }

/-- Scripted session that is blocked (navigation fails) on every attempt. -/
def blockedScript : Nat → AttemptScript := fun _ =>
  { navigateOk := false, pageUrl := "", placeOutcome := none, links := [],
    tries := fun _ _ => TryOutcome.captcha }

def c8Rec : RawRecord := { name := "N" }

/-- Script in which every processed item yields an accepted record. -/
def c8Tries : Nat → Nat → TryOutcome := fun _ _ => TryOutcome.parsed (some c8Rec) none

lemma mem_insertUrl (l : List String) (u0 u : String) :
    u ∈ insertUrl l u0 ↔ u ∈ l ∨ u = u0 := by
  unfold insertUrl
  split
  · next h => exact ⟨Or.inl, fun hu => hu.elim id (fun he => he ▸ h)⟩
  · simp

lemma exists_append_record (l : List RawRecord) (r : RawRecord) (u : String) :
    (∃ r1 ∈ l ++ [r], r1.googleMapsUrl = some u) ↔
      (∃ r1 ∈ l, r1.googleMapsUrl = some u) ∨ r.googleMapsUrl = some u := by
  simp [List.mem_append, or_and_right, exists_or]

/-- C10: `save_failed_url` appends one line to the failure log and leaves the
processed-url set, both output streams and the durable resume state
unchanged, so the identifier stays eligible for a later run.  The frame part
holds whether or not the append itself succeeds. -/
theorem c10_record_failure_frame (s : SaverState) (url err : String) (ok : Bool) :
    (save_failed_url s url err ok).scrapedUrls = s.scrapedUrls ∧
    (save_failed_url s url err ok).csvLines = s.csvLines ∧
    (save_failed_url s url err ok).jsonlLines = s.jsonlLines ∧
    (save_failed_url s url err ok).resumeFile = s.resumeFile ∧
    (save_failed_url s url err true).failedLines = s.failedLines ++ [(url, err)] := by
  unfold save_failed_url
  cases ok <;> simp

/-- C3: after `save_place` returns for a record carrying its source url (and
the resume-state flush succeeds), loading the durable resume state afresh
yields a set containing that url. -/
theorem c3_resume_roundtrip (s : SaverState) (place : RawRecord) (url : String)
    (csvOk jsonlOk : Bool) (h : place.googleMapsUrl = some url) :
    url ∈ load_resume_state (save_place s place csvOk jsonlOk true).resumeFile true := by
  unfold save_place save_resume_state load_resume_state
  rw [h]
  cases csvOk <;> cases jsonlOk <;> simp [mem_insertUrl]

theorem c3_witness :
    "urlB" ∈ load_resume_state (save_place initSaver c3Rec true true true).resumeFile true :=
  c3_resume_roundtrip initSaver c3Rec "urlB" true true rfl

/-- C1 is refuted as stated: a `save_place` call in which both stream writes
fail (and are swallowed, src/scraper_by_link.py 96-97 and 103-104) still adds
the identifier to the processed set, leaving it in the set with no record and
no failure entry durably written. -/
theorem c1_counterexample :
    (save_place initSaver c1Rec false false true).scrapedUrls = ["u"] ∧
    (save_place initSaver c1Rec false false true).csvLines = [] ∧
    (save_place initSaver c1Rec false false true).jsonlLines = [] ∧
    (save_place initSaver c1Rec false false true).failedLines = [] := by
  decide

lemma save_place_ok_none (s : SaverState) (r : RawRecord) (rOk : Bool)
    (hr : r.googleMapsUrl = none) :
    save_place s r true true rOk =
      { s with csvLines := s.csvLines ++ [r],
               jsonlLines := s.jsonlLines ++ [r] } := by
  unfold save_place
  rw [hr]
  rfl

lemma save_place_ok_some (s : SaverState) (r : RawRecord) (rOk : Bool)
    (u0 : String) (hr : r.googleMapsUrl = some u0) :
    save_place s r true true rOk =
      save_resume_state
        { s with csvLines := s.csvLines ++ [r],
                 jsonlLines := s.jsonlLines ++ [r],
                 scrapedUrls := insertUrl s.scrapedUrls u0 } rOk := by
  unfold save_place
  rw [hr]
  rfl

lemma ledgerInv_resume (s : SaverState) (ok : Bool) (hs : ledgerInv s) :
    ledgerInv (save_resume_state s ok) := by
  unfold save_resume_state
  cases ok <;> simpa [ledgerInv] using hs

lemma ledgerInv_failure (s : SaverState) (u e : String) (ok : Bool)
    (hs : ledgerInv s) : ledgerInv (save_failed_url s u e ok) := by
  unfold save_failed_url
  cases ok <;> simpa [ledgerInv] using hs

lemma ledgerInv_place (s : SaverState) (r : RawRecord) (rOk : Bool)
    (hs : ledgerInv s) : ledgerInv (save_place s r true true rOk) := by
  obtain ⟨h1, h2⟩ := hs
  cases hr : r.googleMapsUrl with
  | none =>
      rw [save_place_ok_none s r rOk hr]
      refine ⟨fun u => ?_, by simp [h2]⟩
      show u ∈ s.scrapedUrls ↔ ∃ r1 ∈ s.jsonlLines ++ [r], r1.googleMapsUrl = some u
      rw [exists_append_record, h1 u, hr]
      simp
  | some u0 =>
      rw [save_place_ok_some s r rOk u0 hr]
      apply ledgerInv_resume
      refine ⟨fun u => ?_, by simp [h2]⟩
      show u ∈ insertUrl s.scrapedUrls u0 ↔
        ∃ r1 ∈ s.jsonlLines ++ [r], r1.googleMapsUrl = some u
      rw [mem_insertUrl, exists_append_record, h1 u, hr]
      simp [eq_comm]

lemma ledgerInv_applyOp (s : SaverState) (op : SaverOp) (hs : ledgerInv s)
    (hop : goodOp op) : ledgerInv (applyOp s op) := by
  cases op with
  | place r c j rOk =>
      obtain ⟨hc, hj⟩ := hop
      subst hc
      subst hj
      exact ledgerInv_place s r rOk hs
  | failure u e ok => exact ledgerInv_failure s u e ok hs

lemma ledgerInv_runOps : ∀ (ops : List SaverOp) (s : SaverState),
    ledgerInv s → (∀ op ∈ ops, goodOp op) → ledgerInv (runOps s ops) := by
  intro ops
  induction ops with
  | nil => intro s hs _; simpa [runOps] using hs
  | cons op rest ih =>
      intro s hs hgood
      have hstep : runOps s (op :: rest) = runOps (applyOp s op) rest := rfl
      rw [hstep]
      exact ih (applyOp s op)
        (ledgerInv_applyOp s op hs (hgood op (List.mem_cons_self op rest)))
        (fun o ho => hgood o (List.mem_cons_of_mem op ho))

/-- C1 (amended): in a run in which every `save_place` stream write succeeds,
an identifier is in the processed set iff a record carrying it as
`google_maps_url` has been durably written to the output streams, and both
streams carry the same rows.  When stream writes fail the identifier is added
anyway (see the counterexample), and failure-log entries never add
identifiers. -/
theorem c1_ledger_invariant (ops : List SaverOp)
    (hgood : ∀ op ∈ ops, goodOp op) :
    (∀ u, u ∈ (runOps initSaver ops).scrapedUrls ↔
        ∃ r ∈ (runOps initSaver ops).jsonlLines, r.googleMapsUrl = some u) ∧
    (runOps initSaver ops).csvLines = (runOps initSaver ops).jsonlLines :=
  ledgerInv_runOps ops initSaver ⟨fun u => by simp [initSaver], rfl⟩ hgood

theorem c1_witness :
    ("u" ∈ (runOps initSaver c1Ops).scrapedUrls ↔
        ∃ r ∈ (runOps initSaver c1Ops).jsonlLines, r.googleMapsUrl = some "u") ∧
    (runOps initSaver c1Ops).csvLines = (runOps initSaver c1Ops).jsonlLines := by
  have h := c1_ledger_invariant c1Ops (by
    intro op hop
    simp only [c1Ops, List.mem_singleton] at hop
    subst hop
    exact ⟨rfl, rfl⟩)
  exact ⟨h.1 "u", h.2⟩

/-- C2: in keyword-search mode, `parse_place_details` returns None on every
input: line 433 of src/scraper.py reads `TIMING['networkidle_timeout']`, a
key absent from the TIMING dictionary of src/config.py, so a KeyError is
raised on every call and swallowed by the handler at lines 637-639, which
returns None; the scraper state is left untouched.  Keyword-search mode can
therefore never produce a scraped record. -/
theorem c2_keyword_parse_always_none (dist : ℚ × ℚ → ℚ × ℚ → ℚ)
    (st : ScraperState) (pg : PageState) (now : String) :
    parse_place_details dist TIMING st pg now = (none, st) := by
  unfold parse_place_details
  have h1 : (List.lookup "item_parse_delay" TIMING).isNone = false := rfl
  have h2 : (List.lookup "networkidle_timeout" TIMING).isNone = true := rfl
  rw [h1, h2]
  simp

lemma isPrefOf_iff : ∀ (as bs : List Char), isPrefOf as bs = true ↔ ∃ t, bs = as ++ t := by
  intro as
  induction as with
  | nil =>
      intro bs
      simp [isPrefOf]
  | cons a as ih =>
      intro bs
      cases bs with
      | nil => simp [isPrefOf]
      | cons b bs =>
          simp only [isPrefOf, Bool.and_eq_true, beq_iff_eq, ih,
            List.cons_append, List.cons.injEq]
          constructor
          · rintro ⟨rfl, t, rfl⟩
            exact ⟨t, rfl, rfl⟩
          · rintro ⟨t, rfl, rfl⟩
            exact ⟨rfl, t, rfl⟩

lemma findSub_iff : ∀ (needle hay : List Char),
    findSub needle hay = true ↔ ∃ p t, hay = p ++ needle ++ t := by
  intro needle hay
  induction hay with
  | nil =>
      simp only [findSub, List.isEmpty_iff]
      constructor
      · rintro rfl
        exact ⟨[], [], rfl⟩
      · rintro ⟨p, t, h⟩
        rcases List.append_eq_nil.mp h.symm with ⟨h1, h2⟩
        exact (List.append_eq_nil.mp h1).2
  | cons c rest ih =>
      simp only [findSub, Bool.or_eq_true, ih, isPrefOf_iff]
      constructor
      · rintro (⟨t, h⟩ | ⟨p, t, h⟩)
        · exact ⟨[], t, by simpa using h⟩
        · exact ⟨c :: p, t, by simp [h]⟩
      · rintro ⟨p, t, h⟩
        cases p with
        | nil =>
            left
            exact ⟨t, by simpa using h⟩
        | cons x p =>
            right
            rw [List.cons_append, List.cons_append] at h
            injection h with hx hr
            exact ⟨p, t, hr⟩

/-- C9: for a page whose inspection queries succeed, `check_for_captcha`
classifies the page as blocked iff the CAPTCHA marker element is present or
the lowercased page content contains one of the four fixed blocking phrases
as a contiguous substring.  The embedded function consumes only the page
snapshot and returns a Bool, matching the claim that the classification is
pure. -/
theorem c9_captcha_decision (pg : PageState) :
    check_for_captcha pg true true = true ↔
      (pg.captchaElement = true ∨
        ∃ kw ∈ blocking_keywords, ∃ p t : List Char,
          (lowerStr pg.content).toList = p ++ kw.toList ++ t) := by
  unfold check_for_captcha
  cases h : pg.captchaElement with
  | true => simp [h]
  | false =>
      simp [h, List.any_eq_true, containsSub, findSub_iff]

lemma truthyQ_some_iff (x : ℚ) : truthyQ (some x) = true ↔ x ≠ 0 := by
  simp [truthyQ, bne_iff_ne]

lemma truthyQ_some_zero : truthyQ (some (0 : ℚ)) = false := by
  simp [truthyQ]

/-- C4 is refuted as stated: the scan guard `if lat and lon:` is a Python
truthiness test, so a candidate whose latitude is 0.0 (a point on the
equator) is never compared against the previously accepted records at all.
Here the prior record has truthy coordinates about 11 m away (strictly inside
the 25 m tolerance) and a different name, yet the candidate is accepted. -/
theorem c4_counterexample :
    (is_duplicate sampleDist ⟨["A"], [c4Prior]⟩ "B" (some 0) (some 50)).1 = false ∧
    truthyQ c4Prior.latitude = true ∧ truthyQ c4Prior.longitude = true ∧
    sampleDist (0, 50) (c4Prior.latitude.getD 0, c4Prior.longitude.getD 0)
        < GEO_TOLERANCE_METERS := by
  have ha : absQ ((0 : ℚ) - 1/10000) = 1/10000 := by
    unfold absQ
    rw [if_pos (by norm_num : (0 : ℚ) - 1/10000 < 0)]
    norm_num
  have hb : absQ ((50 : ℚ) - 50) = 0 := by
    unfold absQ
    rw [if_neg (by norm_num : ¬ ((50 : ℚ) - 50 < 0))]
    norm_num
  refine ⟨?_, ?_, ?_, ?_⟩
  · unfold is_duplicate
    rw [if_neg (by decide : ¬ ("B" : String) = "")]
    rw [if_neg (by simp : ¬ ("B" : String) ∈
        (⟨["A"], [c4Prior]⟩ : ScraperState).seenPlaces)]
    rw [if_neg (by simp [truthyQ_some_zero])]
  · rw [show c4Prior.latitude = some (1/10000 : ℚ) from rfl, truthyQ_some_iff]
    norm_num
  · rw [show c4Prior.longitude = some (50 : ℚ) from rfl, truthyQ_some_iff]
    norm_num
  · show sampleDist (0, 50) ((some (1/10000 : ℚ)).getD 0, (some (50 : ℚ)).getD 0)
        < GEO_TOLERANCE_METERS
    unfold sampleDist GEO_TOLERANCE_METERS
    simp only [Option.getD_some]
    rw [show ((0, 50) : ℚ × ℚ).1 - ((1/10000, 50) : ℚ × ℚ).1
        = (0 : ℚ) - 1/10000 from rfl]
    rw [show ((0, 50) : ℚ × ℚ).2 - ((1/10000, 50) : ℚ × ℚ).2
        = (50 : ℚ) - 50 from rfl]
    rw [ha, hb]
    norm_num

/-- C4 (amended): for a candidate with a non-empty unseen name whose latitude
and longitude are both present and nonzero (Python-truthy), `is_duplicate`
classifies it as a duplicate iff some previously accepted record shares its
name or has truthy coordinates strictly within the 25 m tolerance radius of
the candidate.  Candidates (or priors) with an absent or zero coordinate are
exempt from the geodesic scan. -/
theorem c4_geo_scan (dist : ℚ × ℚ → ℚ × ℚ → ℚ) (st : ScraperState)
    (name : String) (lat lon : Option ℚ)
    (h1 : name ≠ "") (h2 : name ∉ st.seenPlaces)
    (h3 : truthyQ lat = true) (h4 : truthyQ lon = true) :
    (is_duplicate dist st name lat lon).1 = true ↔
      ∃ p ∈ st.scrapedPlaces, (p.name = name ∨
        (truthyQ p.latitude = true ∧ truthyQ p.longitude = true ∧
          dist (lat.getD 0, lon.getD 0)
              (p.latitude.getD 0, p.longitude.getD 0) < GEO_TOLERANCE_METERS)) := by
  unfold is_duplicate
  rw [if_neg h1, if_neg h2, if_pos (by rw [h3, h4]; rfl)]
  by_cases hany : st.scrapedPlaces.any (fun p =>
      p.name == name ||
      (truthyQ p.latitude && truthyQ p.longitude &&
        decide (dist (lat.getD 0, lon.getD 0)
            (p.latitude.getD 0, p.longitude.getD 0) < GEO_TOLERANCE_METERS))) = true
  · rw [if_pos hany]
    simp only [List.any_eq_true, Bool.or_eq_true, Bool.and_eq_true,
      beq_iff_eq, decide_eq_true_eq] at hany
    simpa [and_assoc] using hany
  · rw [if_neg hany]
    simp only [List.any_eq_true, Bool.or_eq_true, Bool.and_eq_true,
      beq_iff_eq, decide_eq_true_eq] at hany
    simpa [and_assoc] using hany

theorem c4_witness :
    (is_duplicate sampleDist ⟨["A"], [c4PriorW]⟩ "B" (some 1) (some 50)).1 = true := by
  have h := c4_geo_scan sampleDist ⟨["A"], [c4PriorW]⟩ "B" (some 1) (some 50)
      (by decide) (by simp)
      ((truthyQ_some_iff 1).mpr (by norm_num))
      ((truthyQ_some_iff 50).mpr (by norm_num))
  refine h.2 ⟨c4PriorW, by simp, Or.inr
    ⟨(truthyQ_some_iff 1).mpr (by norm_num),
     (truthyQ_some_iff 50).mpr (by norm_num), ?_⟩⟩
  show sampleDist ((some (1 : ℚ)).getD 0, (some (50 : ℚ)).getD 0)
      ((some (1 : ℚ)).getD 0, (some (50 : ℚ)).getD 0) < GEO_TOLERANCE_METERS
  unfold sampleDist GEO_TOLERANCE_METERS absQ
  norm_num

/-- C5 is refuted as stated: both submissions carry coordinates (latitude 0,
a point on the equator) and have distinct non-empty names, the first is
accepted, the distance between them is 0 (identical points, strictly below
the 25 m tolerance — and any metric vanishes on identical points), yet the
second submission is also accepted, because the Python-truthiness guard
skips the scan when a coordinate equals 0.0. -/
theorem c5_counterexample :
    is_duplicate sampleDist ⟨[], []⟩ "A" (some 0) (some 50)
        = (false, ⟨["A"], []⟩) ∧
    (is_duplicate sampleDist ⟨["A"], [c5Prior]⟩ "B" (some 0) (some 50)).1 = false ∧
    sampleDist (0, 50) (0, 50) = 0 ∧ (0 : ℚ) < GEO_TOLERANCE_METERS := by
  refine ⟨?_, ?_, ?_, by norm_num [GEO_TOLERANCE_METERS]⟩
  · unfold is_duplicate
    rw [if_neg (by decide : ¬ ("A" : String) = "")]
    rw [if_neg (by simp : ¬ ("A" : String) ∈
        (⟨[], []⟩ : ScraperState).seenPlaces)]
    rw [if_neg (by simp [truthyQ_some_zero])]
    rfl
  · unfold is_duplicate
    rw [if_neg (by decide : ¬ ("B" : String) = "")]
    rw [if_neg (by simp : ¬ ("B" : String) ∈
        (⟨["A"], [c5Prior]⟩ : ScraperState).seenPlaces)]
    rw [if_neg (by simp [truthyQ_some_zero])]
  · unfold sampleDist
    norm_num [absQ]

/-- C5 (amended): restricted to submissions whose coordinates are present and
nonzero (Python-truthy): after the first record is accepted from a fresh
state, a second submission with a distinct non-empty name is a duplicate iff
its distance to the first record is strictly below the 25 m tolerance; in
particular at exactly 25 m it is accepted — the boundary is exclusive. -/
theorem c5_tolerance_boundary (dist : ℚ × ℚ → ℚ × ℚ → ℚ) (r1 : RawRecord)
    (name2 : String) (lat2 lon2 : Option ℚ)
    (h1 : r1.name ≠ "") (h2 : name2 ≠ "") (h3 : name2 ≠ r1.name)
    (h4 : truthyQ r1.latitude = true) (h5 : truthyQ r1.longitude = true)
    (h6 : truthyQ lat2 = true) (h7 : truthyQ lon2 = true) :
    is_duplicate dist ⟨[], []⟩ r1.name r1.latitude r1.longitude
        = (false, ⟨[r1.name], []⟩) ∧
    ((is_duplicate dist ⟨[r1.name], [r1]⟩ name2 lat2 lon2).1 = true ↔
      dist (lat2.getD 0, lon2.getD 0) (r1.latitude.getD 0, r1.longitude.getD 0)
          < GEO_TOLERANCE_METERS) := by
  have h3s : r1.name ≠ name2 := Ne.symm h3
  constructor
  · unfold is_duplicate
    rw [if_neg h1]
    rw [if_neg (by simp : ¬ r1.name ∈ (⟨[], []⟩ : ScraperState).seenPlaces)]
    rw [if_pos (by rw [h4, h5]; rfl)]
    simp
  · have hmem : name2 ∉ (⟨[r1.name], [r1]⟩ : ScraperState).seenPlaces := by
      simpa using h3
    rw [c4_geo_scan dist ⟨[r1.name], [r1]⟩ name2 lat2 lon2 h2 hmem h6 h7]
    simp [h3s, h4, h5]

/-- C6 is refuted as stated: the inner-loop exception handler
(src/scraper_by_link.py 911-922) checks `place_retry >= max_place_retry`
before it checks for a CAPTCHA message, so a CAPTCHA hit on the final
(second) inner attempt of an item is recorded as an ordinary item failure
via `save_failed_url` and the loop moves on — no escalation, no session
teardown, no outer retry consumed.  Scripted run: one item, first inner
attempt an ordinary timeout, second a CAPTCHA hit; the run finishes on its
first session attempt with the CAPTCHA recorded in the failure log. -/
theorem c6_counterexample :
    (scrape_with_retry c6Script 5 3 initRun).attemptsUsed = 1 ∧
    (scrape_with_retry c6Script 5 3 initRun).saver.failedLines
        = [("L1", captchaMsg)] ∧
    (scrape_with_retry c6Script 5 3 initRun).scraped = [] := by
  refine ⟨?_, ?_, ?_⟩ <;> rfl

/-- C6 (amended): a BLOCKED (CAPTCHA) classification raised while processing
an item escalates to the outer session retry loop — consuming one outer
retry — whenever it occurs on an inner attempt before the last one; but when
it occurs on the final inner attempt (`place_retry` reaching
`max_place_retry`), it is recorded as an ordinary item failure instead.  The
third conjunct shows a scripted run in which each first-inner-attempt CAPTCHA
consumes one outer session attempt (two attempts for `max_retries = 2`). -/
theorem c6_block_escalation :
    (∀ (link : String) (tries : Nat → TryOutcome) (st : RunState),
        tries 0 = TryOutcome.captcha →
        (runItem link tries st).2 = ItemEnd.escalate captchaMsg) ∧
    (∀ (link : String) (tries : Nat → TryOutcome) (st : RunState) (msg : String),
        tries 0 = TryOutcome.gotoFail msg → isBlockErr msg = false →
        tries 1 = TryOutcome.captcha →
        (runItem link tries st).2 = ItemEnd.recordedFailure captchaMsg) ∧
    (scrape_with_retry c6EscScript 5 2 initRun).attemptsUsed = 2 := by
  have hblock : isBlockErr captchaMsg = true := by decide
  refine ⟨?_, ?_, by rfl⟩
  · intro link tries st h0
    show (runItemGo link tries 2 0 st).2 = ItemEnd.escalate captchaMsg
    simp only [runItemGo]
    rw [h0]
    simp [maxPlaceRetry, hblock]
  · intro link tries st msg h0 hmsg h1
    show (runItemGo link tries 2 0 st).2 = ItemEnd.recordedFailure captchaMsg
    simp only [runItemGo]
    rw [h0, h1]
    simp [maxPlaceRetry, hmsg]

theorem c6_witness :
    (runItem "L" (fun _ => TryOutcome.captcha) initRun).2
        = ItemEnd.escalate captchaMsg :=
  c6_block_escalation.1 "L" (fun _ => TryOutcome.captcha) initRun rfl

lemma retryLoop_blocked (script : Nat → AttemptScript) (already : List String)
    (maxResults : Nat) (hb : ∀ i, (script i).navigateOk = false) :
    ∀ (fuel retryCount : Nat) (st : RunState),
      retryLoop script already maxResults retryCount fuel st
        = { st with attemptsUsed := st.attemptsUsed + fuel } := by
  intro fuel
  induction fuel with
  | zero => intro rc st; rfl
  | succ fuel ih =>
      intro rc st
      have hA : runAttempt (script rc) already maxResults st
          = ({ st with attemptsUsed := st.attemptsUsed + 1 }, some navFailMsg) := by
        unfold runAttempt
        rw [if_pos (by rw [hb rc])]
      show retryLoop script already maxResults rc (fuel + 1) st = _
      simp only [retryLoop]
      rw [hA]
      show retryLoop script already maxResults (rc + 1) fuel
          { st with attemptsUsed := st.attemptsUsed + 1 } = _
      rw [ih (rc + 1)]
      have : st.attemptsUsed + 1 + fuel = st.attemptsUsed + (fuel + 1) := by omega
      rw [this]

/-- C7: when every session attempt fails (here: a scripted session whose
navigation is blocked on every attempt), `scrape_with_retry` performs exactly
`maxRetries` session attempts and then returns normally with the records
accepted before the failures — the embedded function is total, mirroring that
the Python function swallows every attempt failure and falls through to
`return self.scraped_places`. -/
theorem c7_bounded_retry (script : Nat → AttemptScript)
    (maxResults maxRetries : Nat) (st0 : RunState)
    (hb : ∀ i, (script i).navigateOk = false) :
    scrape_with_retry script maxResults maxRetries st0
      = { st0 with attemptsUsed := st0.attemptsUsed + maxRetries } := by
  unfold scrape_with_retry
  exact retryLoop_blocked script _ maxResults hb maxRetries 0 st0

theorem c7_witness :
    (scrape_with_retry blockedScript 10 3 initRun).attemptsUsed = 3 ∧
    (scrape_with_retry blockedScript 10 3 initRun).scraped = [] := by
  have h := c7_bounded_retry blockedScript 10 3 initRun (fun _ => rfl)
  rw [h]
  exact ⟨rfl, rfl⟩

lemma runLinksLoop_accepting (tries : Nat → Nat → TryOutcome) (maxResults : Nat)
    (hacc : ∀ i, ∃ r, tries i 0 = TryOutcome.parsed (some r) none) :
    ∀ (links : List String) (i : Nat) (st : RunState),
      st.scraped.length ≤ maxResults →
      (runLinksLoop tries maxResults links i st).2 = none ∧
      (runLinksLoop tries maxResults links i st).1.fetched
          = st.fetched ++ links.take (maxResults - st.scraped.length) ∧
      (runLinksLoop tries maxResults links i st).1.scraped.length
          = min maxResults (st.scraped.length + links.length) := by
  intro links
  induction links with
  | nil =>
      intro i st hlen
      refine ⟨rfl, by simp [runLinksLoop], ?_⟩
      simp [runLinksLoop, Nat.min_eq_right hlen]
  | cons link rest ih =>
      intro i st hlen
      by_cases hcap : st.scraped.length ≥ maxResults
      · have heq : st.scraped.length = maxResults := le_antisymm hlen hcap
        simp only [runLinksLoop, if_pos hcap]
        refine ⟨by simp, by simp [heq], ?_⟩
        simp only [heq]
        have hmin : min maxResults (maxResults + (link :: rest).length)
            = maxResults := by omega
        simp [hmin]
      · obtain ⟨r, hr⟩ := hacc i
        have hitem : runItem link (tries i) st
            = (recordSuccess { st with fetched := st.fetched ++ [link] } r,
                ItemEnd.success) := by
          show runItemGo link (tries i) 2 0 st = _
          simp only [runItemGo]
          rw [hr]
        simp only [runLinksLoop, if_neg hcap, hitem]
        have hst1 : (recordSuccess { st with fetched := st.fetched ++ [link] } r).scraped.length
            = st.scraped.length + 1 := by
          simp [recordSuccess]
        obtain ⟨hA, hB, hC⟩ := ih (i + 1)
          (recordSuccess { st with fetched := st.fetched ++ [link] } r)
          (by rw [hst1]; omega)
        refine ⟨hA, ?_, ?_⟩
        · rw [hB, hst1]
          have hfet : (recordSuccess { st with fetched := st.fetched ++ [link] } r).fetched
              = st.fetched ++ [link] := by
            simp [recordSuccess]
          rw [hfet]
          have hsub : maxResults - st.scraped.length
              = (maxResults - (st.scraped.length + 1)) + 1 := by omega
          rw [hsub, List.take_succ_cons]
          simp
        · rw [hC, hst1]
          have : st.scraped.length + 1 + rest.length
              = st.scraped.length + (rest.length + 1) := by omega
          rw [this]
          rfl

/-- C8: the per-item loop stops pulling new items once the accepted-record
count reaches `maxResults`: when every processed item yields an accepted
record, the loop navigates to exactly the first `maxResults - (already
accepted)` links — the links beyond the cap never appear in the fetch log —
and ends with `min maxResults (accepted + discovered)` accepted records,
returning without escalation. -/
theorem c8_result_cap (tries : Nat → Nat → TryOutcome) (maxResults : Nat)
    (links : List String) (st : RunState)
    (hacc : ∀ i, ∃ r, tries i 0 = TryOutcome.parsed (some r) none)
    (hlen : st.scraped.length ≤ maxResults) :
    (runLinksLoop tries maxResults links 0 st).2 = none ∧
    (runLinksLoop tries maxResults links 0 st).1.fetched
        = st.fetched ++ links.take (maxResults - st.scraped.length) ∧
    (runLinksLoop tries maxResults links 0 st).1.scraped.length
        = min maxResults (st.scraped.length + links.length) :=
  runLinksLoop_accepting tries maxResults hacc links 0 st hlen

theorem c8_witness :
    (runLinksLoop c8Tries 3 ["l1", "l2", "l3", "l4", "l5"] 0 initRun).1.fetched
        = ["l1", "l2", "l3"] ∧
    (runLinksLoop c8Tries 3 ["l1", "l2", "l3", "l4", "l5"] 0 initRun).1.scraped.length
        = 3 := by
  have h := c8_result_cap c8Tries 3 ["l1", "l2", "l3", "l4", "l5"] initRun
      (fun i => ⟨c8Rec, rfl⟩) (by simp [initRun])
  refine ⟨?_, ?_⟩
  · rw [h.2.1]
    rfl
  · rw [h.2.2]
    rfl

theorem c5_witness :
    (is_duplicate constDist25 ⟨[c5RecW.name], [c5RecW]⟩ "B" (some 3) (some 4)).1
        = false := by
  have h := (c5_tolerance_boundary constDist25 c5RecW "B" (some 3) (some 4)
      (by decide) (by decide) (by decide)
      ((truthyQ_some_iff 1).mpr (by norm_num))
      ((truthyQ_some_iff 2).mpr (by norm_num))
      ((truthyQ_some_iff 3).mpr (by norm_num))
      ((truthyQ_some_iff 4).mpr (by norm_num))).2
  have hlt : ¬ (constDist25 ((some (3 : ℚ)).getD 0, (some (4 : ℚ)).getD 0)
      (c5RecW.latitude.getD 0, c5RecW.longitude.getD 0) < GEO_TOLERANCE_METERS) := by
    unfold constDist25 GEO_TOLERANCE_METERS
    norm_num
  by_cases hb : (is_duplicate constDist25 ⟨[c5RecW.name], [c5RecW]⟩ "B"
      (some 3) (some 4)).1 = true
  · exact absurd (h.mp hb) hlt
  · simpa using hb
